import Mathlib

/-!
A shallow embedding of the deltaR Rust core (src/rust/src/lib.rs, write.rs and
merge.rs): the Arrow-to-kernel type mapper, the lazy schema-casting write path,
the merge clause compiler, and the small table accessors, together with
theorems about the behaviour the specification ascribes to them.

External collaborators (the deltalake engine, DataFusion, the url crate) are
modelled either as oracle fields of an `Env` structure or, where a claim
depends on their behaviour, as definitions whose doc comment starts with
`Modelled from the spec:`.
-/

namespace DeltaR

/-- Arrow time units (arrow::datatypes::TimeUnit). -/
inductive TimeUnit where
  | second
  | millisecond
  | microsecond
  | nanosecond
deriving DecidableEq

/-- Arrow interval units (arrow::datatypes::IntervalUnit). -/
inductive IntervalUnit where
  | yearMonth
  | dayTime
  | monthDayNano
deriving DecidableEq

mutual

/-- The Arrow DataType tree (arrow::datatypes::DataType), the source type
system of the mapper in write.rs.  Constructors that carry a single Arrow
Field (list, map, runEndEncoded) carry the field flattened as
(name, type, nullable); dictionary keeps only the value type, which is the
only part the code inspects.  Numeric widths that Rust stores as u8/i8/i32
are modelled as Nat/Int. -/
inductive ArrowDT where
  | boolean
  | int8
  | int16
  | int32
  | int64
  | uint8
  | uint16
  | uint32
  | uint64
  | float16
  | float32
  | float64
  | utf8
  | largeUtf8
  | utf8View
  | binary
  | largeBinary
  | binaryView
  | fixedSizeBinary (n : Int)
  | date32
  | date64
  | timestamp (unit : TimeUnit) (tz : Option String)
  | time32 (unit : TimeUnit)
  | time64 (unit : TimeUnit)
  | duration (unit : TimeUnit)
  | interval (unit : IntervalUnit)
  | decimal32 (precision : Nat) (scale : Int)
  | decimal64 (precision : Nat) (scale : Int)
  | decimal128 (precision : Nat) (scale : Int)
  | decimal256 (precision : Nat) (scale : Int)
  | list (fieldName : String) (fieldType : ArrowDT) (fieldNullable : Bool)
  | largeList (fieldName : String) (fieldType : ArrowDT) (fieldNullable : Bool)
  | fixedSizeList (fieldName : String) (fieldType : ArrowDT) (fieldNullable : Bool) (n : Int)
  | listView (fieldName : String) (fieldType : ArrowDT) (fieldNullable : Bool)
  | largeListView (fieldName : String) (fieldType : ArrowDT) (fieldNullable : Bool)
  | map (fieldName : String) (fieldType : ArrowDT) (fieldNullable : Bool) (sorted : Bool)
  | struct (fields : FieldList)
  | union
  | dictionary (valueType : ArrowDT)
  | runEndEncoded (fieldName : String) (fieldType : ArrowDT) (fieldNullable : Bool)
  | null

/-- An ordered list of Arrow fields (arrow::datatypes::Fields); each field is
(name, data type, nullable). -/
inductive FieldList where
  | nil
  | cons (name : String) (dataType : ArrowDT) (nullable : Bool) (rest : FieldList)

end

/-- Boolean equality on time units (the derived PartialEq in Rust). -/
def timeUnitEqB : TimeUnit → TimeUnit → Bool
  | .second, .second => true
  | .millisecond, .millisecond => true
  | .microsecond, .microsecond => true
  | .nanosecond, .nanosecond => true
  | _, _ => false

/-- Boolean equality on interval units (the derived PartialEq in Rust). -/
def intervalUnitEqB : IntervalUnit → IntervalUnit → Bool
  | .yearMonth, .yearMonth => true
  | .dayTime, .dayTime => true
  | .monthDayNano, .monthDayNano => true
  | _, _ => false

/-- Boolean equality on optional strings (timezones). -/
def optEqB : Option String → Option String → Bool
  | none, none => true
  | some a, some b => a == b
  | _, _ => false

mutual

/-- Structural equality on Arrow data types, modelling the derived PartialEq
used by arrow Schema::eq in maybe_lazy_cast_reader. -/
def arrowEqB : ArrowDT → ArrowDT → Bool
  | .boolean, .boolean => true
  | .int8, .int8 => true
  | .int16, .int16 => true
  | .int32, .int32 => true
  | .int64, .int64 => true
  | .uint8, .uint8 => true
  | .uint16, .uint16 => true
  | .uint32, .uint32 => true
  | .uint64, .uint64 => true
  | .float16, .float16 => true
  | .float32, .float32 => true
  | .float64, .float64 => true
  | .utf8, .utf8 => true
  | .largeUtf8, .largeUtf8 => true
  | .utf8View, .utf8View => true
  | .binary, .binary => true
  | .largeBinary, .largeBinary => true
  | .binaryView, .binaryView => true
  | .fixedSizeBinary n, .fixedSizeBinary n' => n == n'
  | .date32, .date32 => true
  | .date64, .date64 => true
  | .timestamp u tz, .timestamp u' tz' => timeUnitEqB u u' && optEqB tz tz'
  | .time32 u, .time32 u' => timeUnitEqB u u'
  | .time64 u, .time64 u' => timeUnitEqB u u'
  | .duration u, .duration u' => timeUnitEqB u u'
  | .interval u, .interval u' => intervalUnitEqB u u'
  | .decimal32 p s, .decimal32 p' s' => p == p' && s == s'
  | .decimal64 p s, .decimal64 p' s' => p == p' && s == s'
  | .decimal128 p s, .decimal128 p' s' => p == p' && s == s'
  | .decimal256 p s, .decimal256 p' s' => p == p' && s == s'
  | .list n t b, .list n' t' b' => n == n' && arrowEqB t t' && b == b'
  | .largeList n t b, .largeList n' t' b' => n == n' && arrowEqB t t' && b == b'
  | .fixedSizeList n t b k, .fixedSizeList n' t' b' k' =>
      n == n' && arrowEqB t t' && b == b' && k == k'
  | .listView n t b, .listView n' t' b' => n == n' && arrowEqB t t' && b == b'
  | .largeListView n t b, .largeListView n' t' b' => n == n' && arrowEqB t t' && b == b'
  | .map n t b s, .map n' t' b' s' => n == n' && arrowEqB t t' && b == b' && s == s'
  | .struct fs, .struct gs => fieldsEqB fs gs
  | .union, .union => true
  | .dictionary v, .dictionary v' => arrowEqB v v'
  | .runEndEncoded n t b, .runEndEncoded n' t' b' => n == n' && arrowEqB t t' && b == b'
  | .null, .null => true
  | _, _ => false

/-- Structural equality on Arrow field lists. -/
def fieldsEqB : FieldList → FieldList → Bool
  | .nil, .nil => true
  | .cons n t b r, .cons n' t' b' r' => n == n' && arrowEqB t t' && b == b' && fieldsEqB r r'
  | _, _ => false

end

/-- An Arrow schema: an ordered field list plus key-value metadata
(arrow::datatypes::Schema). -/
structure ArrowSchema where
  fields : FieldList
  metadata : List (String × String)

/-- Boolean equality on schema metadata maps. -/
def metaEqB : List (String × String) → List (String × String) → Bool
  | [], [] => true
  | (k, v) :: r, (k', v') :: r' => k == k' && v == v' && metaEqB r r'
  | _, _ => false

/-- Schema equality as used by maybe_lazy_cast_reader (Schema::eq compares
fields and metadata). -/
def schemaEqB (a b : ArrowSchema) : Bool :=
  fieldsEqB a.fields b.fields && metaEqB a.metadata b.metadata

/-- Rendering of a time unit, as in the Rust Debug derive. -/
def timeUnitFmt : TimeUnit → String
  | .second => "Second"
  | .millisecond => "Millisecond"
  | .microsecond => "Microsecond"
  | .nanosecond => "Nanosecond"

/-- Rendering of an interval unit, as in the Rust Debug derive. -/
def intervalUnitFmt : IntervalUnit → String
  | .yearMonth => "YearMonth"
  | .dayTime => "DayTime"
  | .monthDayNano => "MonthDayNano"

mutual

/-- Abbreviated model of the derived Debug rendering of an Arrow DataType,
used only inside the error messages that write.rs builds with a
format-debug placeholder.  It keeps the constructor names and payloads the
claims inspect; nested Field output is abbreviated relative to Rust. -/
def debugFmt : ArrowDT → String
  | .boolean => "Boolean"
  | .int8 => "Int8"
  | .int16 => "Int16"
  | .int32 => "Int32"
  | .int64 => "Int64"
  | .uint8 => "UInt8"
  | .uint16 => "UInt16"
  | .uint32 => "UInt32"
  | .uint64 => "UInt64"
  | .float16 => "Float16"
  | .float32 => "Float32"
  | .float64 => "Float64"
  | .utf8 => "Utf8"
  | .largeUtf8 => "LargeUtf8"
  | .utf8View => "Utf8View"
  | .binary => "Binary"
  | .largeBinary => "LargeBinary"
  | .binaryView => "BinaryView"
  | .fixedSizeBinary n => "FixedSizeBinary(" ++ toString n ++ ")"
  | .date32 => "Date32"
  | .date64 => "Date64"
  | .timestamp u tz =>
      "Timestamp(" ++ timeUnitFmt u ++ ", " ++
        (match tz with
          | some z => "Some(" ++ z ++ ")"
          | none => "None") ++ ")"
  | .time32 u => "Time32(" ++ timeUnitFmt u ++ ")"
  | .time64 u => "Time64(" ++ timeUnitFmt u ++ ")"
  | .duration u => "Duration(" ++ timeUnitFmt u ++ ")"
  | .interval u => "Interval(" ++ intervalUnitFmt u ++ ")"
  | .decimal32 p s => "Decimal32(" ++ toString p ++ ", " ++ toString s ++ ")"
  | .decimal64 p s => "Decimal64(" ++ toString p ++ ", " ++ toString s ++ ")"
  | .decimal128 p s => "Decimal128(" ++ toString p ++ ", " ++ toString s ++ ")"
  | .decimal256 p s => "Decimal256(" ++ toString p ++ ", " ++ toString s ++ ")"
  | .list n t b => "List(" ++ n ++ ": " ++ debugFmt t ++ ", " ++ toString b ++ ")"
  | .largeList n t b => "LargeList(" ++ n ++ ": " ++ debugFmt t ++ ", " ++ toString b ++ ")"
  | .fixedSizeList n t b k =>
      "FixedSizeList(" ++ n ++ ": " ++ debugFmt t ++ ", " ++ toString b ++ ", " ++
        toString k ++ ")"
  | .listView n t b => "ListView(" ++ n ++ ": " ++ debugFmt t ++ ", " ++ toString b ++ ")"
  | .largeListView n t b =>
      "LargeListView(" ++ n ++ ": " ++ debugFmt t ++ ", " ++ toString b ++ ")"
  | .map n t b s =>
      "Map(" ++ n ++ ": " ++ debugFmt t ++ ", " ++ toString b ++ ", " ++ toString s ++ ")"
  | .struct fs => "Struct([" ++ debugFmtFields fs ++ "])"
  | .union => "Union"
  | .dictionary v => "Dictionary(" ++ debugFmt v ++ ")"
  | .runEndEncoded n t b =>
      "RunEndEncoded(" ++ n ++ ": " ++ debugFmt t ++ ", " ++ toString b ++ ")"
  | .null => "Null"

/-- Abbreviated Debug rendering of an Arrow field list. -/
def debugFmtFields : FieldList → String
  | .nil => ""
  | .cons n t b .nil => n ++ ": " ++ debugFmt t ++ ", " ++ toString b
  | .cons n t b r => n ++ ": " ++ debugFmt t ++ ", " ++ toString b ++ "; " ++ debugFmtFields r

end

/-- Delta kernel primitive type kinds (deltalake::kernel::PrimitiveType). -/
inductive KPrimitive where
  | boolean
  | byte
  | short
  | integer
  | long
  | float
  | double
  | string
  | binary
  | date
  | timestamp
  | timestampNtz
  | decimal (precision : Nat) (scale : Nat)

mutual

/-- The Delta kernel DataType tree (deltalake::kernel::DataType), the target
type system of the mapper. -/
inductive KernelDT where
  | primitive (p : KPrimitive)
  | array (elementType : KernelDT) (containsNull : Bool)
  | map (keyType : KernelDT) (valueType : KernelDT) (valueContainsNull : Bool)
  | struct (fields : KFieldList)
  | variant (fields : KFieldList)

/-- An ordered list of kernel struct fields; each field is
(name, data type, nullable), as deltalake::kernel::StructField. -/
inductive KFieldList where
  | nil
  | cons (name : String) (dataType : KernelDT) (nullable : Bool) (rest : KFieldList)

end

/-- The error type of the strict Arrow-to-kernel mapper in write.rs. -/
structure TypeConversionError where
  message : String

/-- Whether an Except value is an ok result. -/
def isOkB : Except ε α → Bool
  | .ok _ => true
  | .error _ => false

/-- The message carried by an error result of the type mapper (empty for ok). -/
def errMessage : Except TypeConversionError KernelDT → String
  | .error e => e.message
  | .ok _ => ""

/-- The Rust cast from an i8 scale to the u8 the kernel constructor takes
(the expression scale-as-u8 in write.rs). -/
def i8ToU8 (s : Int) : Nat :=
  ((s % 256 : Int)).toNat

/-- Modelled from the spec: the external constructor KernelDT::decimal of the
deltalake kernel (not part of this repository).  Spec section 3 gives the
TargetType invariant "precision in [1,38] for decimal"; the constructor
returns the decimal primitive when the invariant holds and an error
otherwise. -/
def kernelDecimal (precision scale : Nat) : Except String KernelDT :=
  if 1 ≤ precision ∧ precision ≤ 38 then
    .ok (.primitive (.decimal precision scale))
  else
    .error ("decimal precision " ++ toString precision ++ " is out of range [1,38]")

/-- The names of a kernel field list. -/
def kfieldNames : KFieldList → List String
  | .nil => []
  | .cons n _ _ r => n :: kfieldNames r

/-- Whether a kernel field list repeats a field name. -/
def kfieldHasDupName : KFieldList → Bool
  | .nil => false
  | .cons n _ _ r => (kfieldNames r).contains n || kfieldHasDupName r

/-- Modelled from the spec: the external constructor StructType::try_new of
the deltalake kernel (not part of this repository).  Spec section 3 gives the
TargetType invariant "struct field names unique within a struct"; the
constructor returns the struct when names are unique and an error
otherwise. -/
def structTryNew (fields : KFieldList) : Except String KernelDT :=
  if kfieldHasDupName fields then
    .error "duplicate struct field names"
  else
    .ok (.struct fields)

mutual

/-- The strict Arrow-to-kernel type mapper of write.rs (arrow_type_to_kernel):
total over the Arrow type tree, returning either the mapped kernel type or a
TypeConversionError whose message names the offending type and a remediation
hint.  The single apostrophe of the UInt64 source message is dropped
("Delta Lake Long type" for "Delta Lake's Long type"). -/
def arrow_type_to_kernel : ArrowDT → Except TypeConversionError KernelDT
  | .boolean => .ok (.primitive .boolean)
  | .int8 => .ok (.primitive .byte)
  | .int16 => .ok (.primitive .short)
  | .int32 => .ok (.primitive .integer)
  | .int64 => .ok (.primitive .long)
  | .uint8 => .ok (.primitive .short)
  | .uint16 => .ok (.primitive .integer)
  | .uint32 => .ok (.primitive .long)
  | .uint64 =>
      .error ⟨"Unsupported Arrow type for Delta Lake: " ++ debugFmt .uint64 ++
        ". UInt64 values may exceed the range of Delta Lake Long type (Int64). " ++
        "Consider casting to Int64 if values are within range, or use Decimal128."⟩
  | .float16 => .ok (.primitive .float)
  | .float32 => .ok (.primitive .float)
  | .float64 => .ok (.primitive .double)
  | .utf8 => .ok (.primitive .string)
  | .largeUtf8 => .ok (.primitive .string)
  | .utf8View => .ok (.primitive .string)
  | .binary => .ok (.primitive .binary)
  | .largeBinary => .ok (.primitive .binary)
  | .binaryView => .ok (.primitive .binary)
  | .fixedSizeBinary _ => .ok (.primitive .binary)
  | .date32 => .ok (.primitive .date)
  | .date64 => .ok (.primitive .date)
  | .timestamp _ (some _) => .ok (.primitive .timestamp)
  | .timestamp _ none => .ok (.primitive .timestampNtz)
  | .time32 u =>
      .error ⟨"Unsupported Arrow type for Delta Lake: " ++ debugFmt (.time32 u) ++
        ". Delta Lake does not support standalone Time types. " ++
        "Consider using Timestamp or storing as String/Int64."⟩
  | .time64 u =>
      .error ⟨"Unsupported Arrow type for Delta Lake: " ++ debugFmt (.time64 u) ++
        ". Delta Lake does not support standalone Time types. " ++
        "Consider using Timestamp or storing as String/Int64."⟩
  | .duration u =>
      .error ⟨"Unsupported Arrow type for Delta Lake: " ++ debugFmt (.duration u) ++
        ". Delta Lake does not support Duration types. " ++
        "Consider storing as Int64 (representing microseconds or your preferred unit)."⟩
  | .interval u =>
      .error ⟨"Unsupported Arrow type for Delta Lake: " ++ debugFmt (.interval u) ++
        ". Delta Lake does not support Interval types. " ++
        "Consider storing interval components as separate columns."⟩
  | .decimal32 p s =>
      (kernelDecimal p (i8ToU8 s)).mapError fun e =>
        ⟨"Invalid Decimal32 parameters (precision: " ++ toString p ++ ", scale: " ++
          toString s ++ "): " ++ e⟩
  | .decimal64 p s =>
      (kernelDecimal p (i8ToU8 s)).mapError fun e =>
        ⟨"Invalid Decimal64 parameters (precision: " ++ toString p ++ ", scale: " ++
          toString s ++ "): " ++ e⟩
  | .decimal128 p s =>
      (kernelDecimal p (i8ToU8 s)).mapError fun e =>
        ⟨"Invalid Decimal128 parameters (precision: " ++ toString p ++ ", scale: " ++
          toString s ++ "): " ++ e⟩
  | .decimal256 p s =>
      if p > 38 then
        .error ⟨"Unsupported Arrow type for Delta Lake: Decimal256 with precision " ++
          toString p ++ ". Delta Lake supports Decimal with precision up to 38. " ++
          "Consider reducing precision or storing as String."⟩
      else
        (kernelDecimal p (i8ToU8 s)).mapError fun e =>
          ⟨"Invalid Decimal256 parameters (precision: " ++ toString p ++ ", scale: " ++
            toString s ++ "): " ++ e⟩
  | .list _ t b => do
      let elementType ← arrow_type_to_kernel t
      .ok (.array elementType b)
  | .largeList _ t b => do
      let elementType ← arrow_type_to_kernel t
      .ok (.array elementType b)
  | .fixedSizeList _ t b _ => do
      let elementType ← arrow_type_to_kernel t
      .ok (.array elementType b)
  | .listView _ t b => do
      let elementType ← arrow_type_to_kernel t
      .ok (.array elementType b)
  | .largeListView _ t b => do
      let elementType ← arrow_type_to_kernel t
      .ok (.array elementType b)
  | .map mn met mb ms =>
      match met with
      | .struct (.cons _ kt _ (.cons _ vt vb _)) => do
          let keyType ← arrow_type_to_kernel kt
          let valueType ← arrow_type_to_kernel vt
          .ok (.map keyType valueType vb)
      | _ =>
          .error ⟨"Invalid Map type structure: " ++ debugFmt (.map mn met mb ms) ++
            ". Expected Map field to contain a Struct with at least 2 fields (key, value)."⟩
  | .struct fs => do
      let mapped ← map_struct_fields fs
      (structTryNew mapped).mapError fun e =>
        ⟨"Failed to create Delta Struct type: " ++ e⟩
  | .union =>
      .error ⟨"Unsupported Arrow type for Delta Lake: " ++ debugFmt .union ++
        ". Delta Lake does not support Union types. " ++
        "Consider restructuring your data or using a Struct with nullable fields."⟩
  | .dictionary v => arrow_type_to_kernel v
  | .runEndEncoded _ t _ => arrow_type_to_kernel t
  | .null =>
      .error ⟨"Unsupported Arrow type for Delta Lake: Null. " ++
        "Delta Lake does not support columns with only null values. " ++
        "Consider removing null-only columns or assigning a concrete type."⟩

/-- Field-by-field mapping of an Arrow struct field list, propagating the
first failure (the collect over Results in the struct arm of write.rs). -/
def map_struct_fields : FieldList → Except TypeConversionError KFieldList
  | .nil => .ok .nil
  | .cons n t b r => do
      let kt ← arrow_type_to_kernel t
      let kr ← map_struct_fields r
      .ok (.cons n kt b kr)

end

/-! ## Write path: lazy schema casting (write.rs lines 199-384) -/

/-- A record batch: its schema and an abstract payload identifier that lets a
theorem observe whether the batch object was replaced by a cast. -/
structure Batch where
  schema : ArrowSchema
  payload : Nat

/-- A pull-based record batch reader: a declared schema and the sequence of
pull results, each a batch or a stream error. -/
structure Reader where
  schema : ArrowSchema
  items : List (Except String Batch)

/-- Modelled from the spec: the external deltalake kernel function
cast_record_batch (not part of this repository); per the SchemaCaster
contract it "casts the batch to a target schema", so the model rewrites the
schema of the batch and keeps its payload. -/
def cast_record_batch (b : Batch) (target : ArrowSchema) : Except String Batch :=
  .ok { schema := target, payload := b.payload }

/-- The reader produced by wrapping an input in LazyCastReader: its declared
schema is the target schema and each pulled ok batch is cast on pull
(write.rs lines 201-225). -/
def lazy_cast_reader (input : Reader) (target_schema : ArrowSchema) : Reader :=
  { schema := target_schema
    items := input.items.map fun it =>
      match it with
      | .ok batch =>
          (cast_record_batch batch target_schema).mapError fun e => "Cast error: " ++ e
      | .error e => .error e }

/-- The schema-casting wrapper maybe_lazy_cast_reader (write.rs lines
229-241): if the input schema differs from the target schema, wrap in
LazyCastReader; otherwise return the input unchanged. -/
def maybe_lazy_cast_reader (input : Reader) (target_schema : ArrowSchema) : Reader :=
  if !(schemaEqB input.schema target_schema) then
    lazy_cast_reader input target_schema
  else
    input

/-- The data path of delta_write that selects the reader handed to the engine
(write.rs lines 294-327): the schema captured from the reader up front
(batch_schema) is passed to maybe_lazy_cast_reader as the target schema. -/
def delta_write_cast_stage (reader : Reader) : Reader :=
  let batch_schema := reader.schema
  maybe_lazy_cast_reader reader batch_schema

/-! ## Table handle and result records (lib.rs, write.rs lines 372-383) -/

/-- The state of an opened deltalake table that the wrapped accessors read:
its version if available, the file-uri listing or its error, and whether a
loaded snapshot state is present. -/
structure DeltaTable where
  version : Option Int
  fileUris : Except String (List String)
  state : Option Unit

/-- The public version accessor DeltaTableInternal::version (lib.rs lines
150-153): the sentinel -1 when the underlying version is unavailable. -/
def DeltaTableInternal.version (t : DeltaTable) : Int :=
  t.version.getD (-1)

/-- The result record built at the end of delta_write (write.rs lines
372-383): (version, num_files), with version falling back to -1 and
num_files to 0 when unavailable. -/
def delta_write_result (t : DeltaTable) : Int × Int :=
  (t.version.getD (-1),
    match t.fileUris with
    | .ok uris => uris.length
    | .error _ => 0)

/-! ## R values and clause extraction (merge.rs lines 171-219, lib.rs) -/

/-- A loosely typed R value as the extendr layer hands it to the core: a
string, a logical, a named list, or anything else. -/
inductive RVal where
  | strV (s : String)
  | boolV (b : Bool)
  | listV (items : List (String × RVal))
  | otherV

/-- Robj::as_str: some for strings, none otherwise. -/
def RVal.as_str : RVal → Option String
  | .strV s => some s
  | _ => none

/-- Robj::as_bool: some for logicals, none otherwise. -/
def RVal.as_bool : RVal → Option Bool
  | .boolV b => some b
  | _ => none

/-- Robj::as_list: some for lists, none otherwise. -/
def RVal.as_list : RVal → Option (List (String × RVal))
  | .listV items => some items
  | _ => none

/-- HashMap::insert modelled deterministically on an association list:
replace the value of an existing key, else append (last write wins). -/
def upsert (m : List (String × String)) (k v : String) : List (String × String) :=
  if m.any fun p => p.1 == k then
    m.map fun p => if p.1 == k then (k, v) else p
  else
    m ++ [(k, v)]

/-- parse_storage_options (lib.rs lines 114-122): keep the entries whose
value is a string. -/
def parse_storage_options (opts : List (String × RVal)) : List (String × String) :=
  opts.foldl
    (fun m kv =>
      match kv.2.as_str with
      | some v => upsert m kv.1 v
      | none => m)
    []

/-- extract_updates (merge.rs lines 171-189): the first "updates" entry that
is a list yields its string-valued entries as a column-to-expression map;
otherwise the map is empty.  Always ok, as in the source. -/
def extract_updates (clause : List (String × RVal)) : Except String (List (String × String)) :=
  match clause.find? fun kv => kv.1 == "updates" with
  | some kv =>
      match kv.2.as_list with
      | some updatesList =>
          .ok (updatesList.foldl
            (fun m colKv =>
              match colKv.2.as_str with
              | some v => upsert m colKv.1 v
              | none => m)
            [])
      | none => .ok []
  | none => .ok []

/-- extract_predicate (merge.rs lines 192-199): the first "predicate" entry
determines the result; a non-string value yields none. -/
def extract_predicate (clause : List (String × RVal)) : Option String :=
  match clause.find? fun kv => kv.1 == "predicate" with
  | some kv => kv.2.as_str
  | none => none

/-- is_update_all (merge.rs lines 202-209): the first "update_all" entry read
as a logical, defaulting to false. -/
def is_update_all (clause : List (String × RVal)) : Bool :=
  match clause.find? fun kv => kv.1 == "update_all" with
  | some kv => kv.2.as_bool.getD false
  | none => false

/-- is_insert_all (merge.rs lines 212-219): the first "insert_all" entry read
as a logical, defaulting to false. -/
def is_insert_all (clause : List (String × RVal)) : Bool :=
  match clause.find? fun kv => kv.1 == "insert_all" with
  | some kv => kv.2.as_bool.getD false
  | none => false

/-! ## Merge builder and clause compilation (merge.rs lines 105-354) -/

/-- One compiled clause as recorded by the engine builder, tagged by its
category. -/
inductive MergeOp where
  | matchedUpdate (predicate : Option String) (updates : List (String × String))
  | matchedDelete (predicate : Option String)
  | notMatchedInsert (predicate : Option String) (sets : List (String × String))
  | notMatchedBySourceUpdate (predicate : Option String) (updates : List (String × String))
  | notMatchedBySourceDelete (predicate : Option String)

/-- Modelled from the spec: the external deltalake MergeBuilder (not part of
this repository).  Per the section 6 boundary it only accumulates the
per-category clause specification before the single engine submission; the
join predicate, aliases and source relation are stored alongside and passed
to the engine unchanged, so the model keeps the ordered clause list. -/
structure MergeBuilder where
  ops : List MergeOp

/-- Modelled from the spec: MergeBuilder::when_matched_update records the
clause and succeeds. -/
def MergeBuilder.when_matched_update (b : MergeBuilder) (predicate : Option String)
    (updates : List (String × String)) : Except String MergeBuilder :=
  .ok ⟨b.ops ++ [.matchedUpdate predicate updates]⟩

/-- Modelled from the spec: MergeBuilder::when_matched_delete records the
clause and succeeds. -/
def MergeBuilder.when_matched_delete (b : MergeBuilder) (predicate : Option String) :
    Except String MergeBuilder :=
  .ok ⟨b.ops ++ [.matchedDelete predicate]⟩

/-- Modelled from the spec: MergeBuilder::when_not_matched_insert records the
clause and succeeds. -/
def MergeBuilder.when_not_matched_insert (b : MergeBuilder) (predicate : Option String)
    (sets : List (String × String)) : Except String MergeBuilder :=
  .ok ⟨b.ops ++ [.notMatchedInsert predicate sets]⟩

/-- Modelled from the spec: MergeBuilder::when_not_matched_by_source_update
records the clause and succeeds. -/
def MergeBuilder.when_not_matched_by_source_update (b : MergeBuilder)
    (predicate : Option String) (updates : List (String × String)) :
    Except String MergeBuilder :=
  .ok ⟨b.ops ++ [.notMatchedBySourceUpdate predicate updates]⟩

/-- Modelled from the spec: MergeBuilder::when_not_matched_by_source_delete
records the clause and succeeds. -/
def MergeBuilder.when_not_matched_by_source_delete (b : MergeBuilder)
    (predicate : Option String) : Except String MergeBuilder :=
  .ok ⟨b.ops ++ [.notMatchedBySourceDelete predicate]⟩

/-- add_matched_update_clause (merge.rs lines 222-256): reject update_all
with the not-yet-supported error, otherwise record the update clause with
its extracted predicate and column mapping. -/
def add_matched_update_clause (builder : MergeBuilder) (clause : List (String × RVal)) :
    Except String MergeBuilder :=
  let predicate := extract_predicate clause
  if is_update_all clause then
    .error ("when_matched_update_all is not yet supported. " ++
      "Please use when_matched_update with explicit column mappings.")
  else do
    let updates ← extract_updates clause
    match predicate with
    | some p => builder.when_matched_update (some p) updates
    | none => builder.when_matched_update none updates

/-- add_matched_delete_clause (merge.rs lines 259-271). -/
def add_matched_delete_clause (builder : MergeBuilder) (clause : List (String × RVal)) :
    Except String MergeBuilder :=
  let predicate := extract_predicate clause
  match predicate with
  | some p => builder.when_matched_delete (some p)
  | none => builder.when_matched_delete none

/-- add_not_matched_insert_clause (merge.rs lines 274-306): reject insert_all
with the not-yet-supported error, otherwise record the insert clause. -/
def add_not_matched_insert_clause (builder : MergeBuilder) (clause : List (String × RVal)) :
    Except String MergeBuilder :=
  let predicate := extract_predicate clause
  if is_insert_all clause then
    .error ("when_not_matched_insert_all is not yet supported. " ++
      "Please use when_not_matched_insert with explicit column mappings.")
  else do
    let updates ← extract_updates clause
    match predicate with
    | some p => builder.when_not_matched_insert (some p) updates
    | none => builder.when_not_matched_insert none updates

/-- add_not_matched_by_source_update_clause (merge.rs lines 309-336): note
that, unlike the matched-update arm, this arm performs no update_all
check. -/
def add_not_matched_by_source_update_clause (builder : MergeBuilder)
    (clause : List (String × RVal)) : Except String MergeBuilder := do
  let predicate := extract_predicate clause
  let updates ← extract_updates clause
  match predicate with
  | some p => builder.when_not_matched_by_source_update (some p) updates
  | none => builder.when_not_matched_by_source_update none updates

/-- add_not_matched_by_source_delete_clause (merge.rs lines 339-354). -/
def add_not_matched_by_source_delete_clause (builder : MergeBuilder)
    (clause : List (String × RVal)) : Except String MergeBuilder :=
  let predicate := extract_predicate clause
  match predicate with
  | some p => builder.when_not_matched_by_source_delete (some p)
  | none => builder.when_not_matched_by_source_delete none

/-- One category loop of delta_merge_execute (merge.rs lines 114-147): each
entry whose value is a list is folded into the builder by the category
handler; a handler error aborts via the question-mark operator; non-list
entries are skipped. -/
def fold_category_clauses
    (add : MergeBuilder → List (String × RVal) → Except String MergeBuilder) :
    MergeBuilder → List (String × RVal) → Except String MergeBuilder
  | b, [] => .ok b
  | b, kv :: rest =>
      match kv.2.as_list with
      | some clauseList =>
          match add b clauseList with
          | .ok b' => fold_category_clauses add b' rest
          | .error e => .error e
      | none => fold_category_clauses add b rest

/-- The clauses a single category contributes, compiled in isolation from an
empty builder. -/
def category_ops
    (add : MergeBuilder → List (String × RVal) → Except String MergeBuilder)
    (clauses : List (String × RVal)) : Except String (List MergeOp) :=
  (fold_category_clauses add ⟨[]⟩ clauses).map fun b => b.ops

/-- The clause-compilation phase of delta_merge_execute (merge.rs lines
114-147): the five categories folded sequentially in the fixed source order
matched-update, matched-delete, not-matched-insert,
not-matched-by-source-update, not-matched-by-source-delete. -/
def compile_all_clauses (mu md nmi nbu nbd : List (String × RVal)) :
    Except String MergeBuilder := do
  let b1 ← fold_category_clauses add_matched_update_clause ⟨[]⟩ mu
  let b2 ← fold_category_clauses add_matched_delete_clause b1 md
  let b3 ← fold_category_clauses add_not_matched_insert_clause b2 nmi
  let b4 ← fold_category_clauses add_not_matched_by_source_update_clause b3 nbu
  fold_category_clauses add_not_matched_by_source_delete_clause b4 nbd

/-- Metrics of a merge as returned to R (merge.rs lines 154-163). -/
structure MergeMetrics where
  num_target_rows_inserted : Nat
  num_target_rows_updated : Nat
  num_target_rows_deleted : Nat
  num_target_files_added : Nat
  num_target_files_removed : Nat
  num_target_rows_copied : Nat
  num_output_rows : Nat
  execution_time_ms : Nat

/-- Oracles for the external collaborators: URL parsing and filesystem
canonicalization (the url crate and std), table opening and loading, and the
engine merge commit.  Each field stands for one external call site. -/
structure Env where
  parseUrl : String → Option String
  canonicalize : String → Option String
  fromFilePath : String → Option String
  tryFromUrl : String → Except String DeltaTable
  tryFromUrlWithOptions : String → List (String × String) → Except String DeltaTable
  loadTable : DeltaTable → Except String Unit
  engineMerge : DeltaTable → MergeBuilder → List Batch → Except String (DeltaTable × MergeMetrics)

/-- The source-collection loop of delta_merge_execute (merge.rs lines 77-83):
drain the reader, aborting on the first stream error. -/
def collect_batches : List (Except String Batch) → Except String (List Batch)
  | [] => .ok []
  | .ok b :: rest => (collect_batches rest).map fun bs => b :: bs
  | .error e :: _ => .error ("Failed to read batch: " ++ e)

/-- Modelled from the spec: DataFusion MemTable::try_new (not part of this
repository), which accepts the collected batches when they carry the declared
schema. -/
def mem_table_new (schema : ArrowSchema) (batches : List Batch) : Except String Unit :=
  if batches.all fun b => schemaEqB b.schema schema then
    .ok ()
  else
    .error "mismatched batch schema"

/-- The merge orchestrator delta_merge_execute (merge.rs lines 39-164) from
the loaded table onward: collect the source stream, build the in-memory
source relation, require a loaded snapshot state, compile the five clause
categories in fixed order, and only then submit to the engine.  The result
pairs the table state the caller observes afterwards with the metrics or the
error; on any error before the engine call the table state is unchanged, and
on an engine error the prior version stays published per the engine
guarantee. -/
def delta_merge_execute (env : Env) (t : DeltaTable) (reader : Reader)
    (mu md nmi nbu nbd : List (String × RVal)) :
    DeltaTable × Except String MergeMetrics :=
  match collect_batches reader.items with
  | .error e => (t, .error e)
  | .ok batches =>
      match mem_table_new reader.schema batches with
      | .error e => (t, .error ("Failed to create memory table: " ++ e))
      | .ok _ =>
          match t.state with
          | none => (t, .error "Table must be loaded before merge")
          | some _ =>
              match compile_all_clauses mu md nmi nbu nbd with
              | .error e => (t, .error e)
              | .ok b =>
                  match env.engineMerge t b batches with
                  | .error e => (t, .error ("Merge failed: " ++ e))
                  | .ok (t', m) => (t', .ok m)

/-! ## Table detection (lib.rs lines 125-139 and 456-476) -/

/-- path_to_url (lib.rs lines 125-139): try URL parsing, else canonicalize
the path (falling back to the raw path) and convert it to a file URL. -/
def path_to_url (env : Env) (path : String) : Except String String :=
  match env.parseUrl path with
  | some url => .ok url
  | none =>
      let canonical := (env.canonicalize path).getD path
      match env.fromFilePath canonical with
      | some url => .ok url
      | none => .error ("Failed to create URL from path: " ++ path)

/-- The table-opening step shared by the entry points: with storage options
use try_from_url_with_storage_options on the parsed options, otherwise
try_from_url. -/
def open_table (env : Env) (url : String) (storage_options : Option (List (String × RVal))) :
    Except String DeltaTable :=
  match storage_options with
  | some opts => env.tryFromUrlWithOptions url (parse_storage_options opts)
  | none => env.tryFromUrl url

/-- is_delta_table (lib.rs lines 456-476): false when the path does not
convert to a URL, false when the table does not open, otherwise whether the
load succeeds. -/
def is_delta_table (env : Env) (path : String)
    (storage_options : Option (List (String × RVal))) : Bool :=
  match path_to_url env path with
  | .error _ => false
  | .ok url =>
      match open_table env url storage_options with
      | .ok t => isOkB (env.loadTable t)
      | .error _ => false

/-! ## Reverse mapping used by the schema accessor (lib.rs lines 29-98) -/

mutual

/-- kernel_type_to_arrow (lib.rs lines 29-86): the total reverse mapping from
kernel types to Arrow types used by DeltaTableInternal::schema; Variant falls
back to the plain string type. -/
def kernel_type_to_arrow : KernelDT → ArrowDT
  | .primitive p =>
      match p with
      | .string => .utf8
      | .long => .int64
      | .integer => .int32
      | .short => .int16
      | .byte => .int8
      | .float => .float32
      | .double => .float64
      | .boolean => .boolean
      | .binary => .binary
      | .date => .date32
      | .timestamp => .timestamp .microsecond (some "UTC")
      | .timestampNtz => .timestamp .microsecond none
      | .decimal p s => .decimal128 p (if s < 128 then (s : Int) else (s : Int) - 256)
  | .array arr containsNull =>
      .list "item" (kernel_type_to_arrow arr) containsNull
  | .map keyType valueType valueContainsNull =>
      .map "entries"
        (.struct (.cons "key" (kernel_type_to_arrow keyType) false
          (.cons "value" (kernel_type_to_arrow valueType) valueContainsNull .nil)))
        false false
  | .struct fields => .struct (kernel_fields_to_arrow fields)
  | .variant _ => .utf8

/-- kernel_field_to_arrow lifted over a field list (lib.rs lines 89-98). -/
def kernel_fields_to_arrow : KFieldList → FieldList
  | .nil => .nil
  | .cons n t b r => .cons n (kernel_type_to_arrow t) b (kernel_fields_to_arrow r)

end

/-- kernel_schema_to_arrow (lib.rs lines 95-98): field-by-field conversion of
the table schema, with empty metadata. -/
def kernel_schema_to_arrow (fields : KFieldList) : ArrowSchema :=
  { fields := kernel_fields_to_arrow fields, metadata := [] }

/-- Whether an Arrow type is a struct with at least two fields: the shape the
Map arm of the mapper requires of the entry type. -/
def structHasTwoFields : ArrowDT → Bool
  | .struct (.cons _ _ _ (.cons _ _ _ _)) => true
  | _ => false

/-- A concrete sample environment used to instantiate universally quantified
theorems at explicit inputs. -/
def sampleEnv : Env :=
  { parseUrl := fun _ => none
    canonicalize := fun _ => none
    fromFilePath := fun _ => none
    tryFromUrl := fun _ => .error "no table"
    tryFromUrlWithOptions := fun _ _ => .error "no table"
    loadTable := fun _ => .ok ()
    engineMerge := fun t _ _ => .ok (t, ⟨0, 0, 0, 0, 0, 0, 0, 0⟩) }

/-- A concrete loaded sample table at version 3. -/
def sampleTable : DeltaTable :=
  { version := some 3, fileUris := .ok [], state := some () }

/-- A concrete empty sample source reader. -/
def sampleReader : Reader :=
  { schema := { fields := .nil, metadata := [] }, items := [] }

/-! ## Helper lemmas -/

/-- Reflexivity of the time-unit equality. -/
theorem timeUnitEqB_refl (u : TimeUnit) : timeUnitEqB u u = true := by
  cases u <;> rfl

/-- Reflexivity of the interval-unit equality. -/
theorem intervalUnitEqB_refl (u : IntervalUnit) : intervalUnitEqB u u = true := by
  cases u <;> rfl

/-- Reflexivity of the optional-string equality. -/
theorem optEqB_refl (o : Option String) : optEqB o o = true := by
  cases o <;> simp [optEqB]

mutual

/-- Reflexivity of the Arrow type equality. -/
theorem arrowEqB_refl : (t : ArrowDT) → arrowEqB t t = true
  | .boolean => rfl
  | .int8 => rfl
  | .int16 => rfl
  | .int32 => rfl
  | .int64 => rfl
  | .uint8 => rfl
  | .uint16 => rfl
  | .uint32 => rfl
  | .uint64 => rfl
  | .float16 => rfl
  | .float32 => rfl
  | .float64 => rfl
  | .utf8 => rfl
  | .largeUtf8 => rfl
  | .utf8View => rfl
  | .binary => rfl
  | .largeBinary => rfl
  | .binaryView => rfl
  | .fixedSizeBinary n => show (n == n) = true by simp
  | .date32 => rfl
  | .date64 => rfl
  | .timestamp u tz =>
      show (timeUnitEqB u u && optEqB tz tz) = true by
        simp [timeUnitEqB_refl u, optEqB_refl tz]
  | .time32 u => show timeUnitEqB u u = true from timeUnitEqB_refl u
  | .time64 u => show timeUnitEqB u u = true from timeUnitEqB_refl u
  | .duration u => show timeUnitEqB u u = true from timeUnitEqB_refl u
  | .interval u => show intervalUnitEqB u u = true from intervalUnitEqB_refl u
  | .decimal32 p s => show (p == p && s == s) = true by simp
  | .decimal64 p s => show (p == p && s == s) = true by simp
  | .decimal128 p s => show (p == p && s == s) = true by simp
  | .decimal256 p s => show (p == p && s == s) = true by simp
  | .list n t b =>
      show (n == n && arrowEqB t t && b == b) = true by simp [arrowEqB_refl t]
  | .largeList n t b =>
      show (n == n && arrowEqB t t && b == b) = true by simp [arrowEqB_refl t]
  | .fixedSizeList n t b k =>
      show (n == n && arrowEqB t t && b == b && k == k) = true by simp [arrowEqB_refl t]
  | .listView n t b =>
      show (n == n && arrowEqB t t && b == b) = true by simp [arrowEqB_refl t]
  | .largeListView n t b =>
      show (n == n && arrowEqB t t && b == b) = true by simp [arrowEqB_refl t]
  | .map n t b s =>
      show (n == n && arrowEqB t t && b == b && s == s) = true by simp [arrowEqB_refl t]
  | .struct fs => show fieldsEqB fs fs = true from fieldsEqB_refl fs
  | .union => rfl
  | .dictionary v => show arrowEqB v v = true from arrowEqB_refl v
  | .runEndEncoded n t b =>
      show (n == n && arrowEqB t t && b == b) = true by simp [arrowEqB_refl t]
  | .null => rfl

/-- Reflexivity of the field-list equality. -/
theorem fieldsEqB_refl : (fs : FieldList) → fieldsEqB fs fs = true
  | .nil => rfl
  | .cons n t b r =>
      show (n == n && arrowEqB t t && b == b && fieldsEqB r r) = true by
        simp [arrowEqB_refl t, fieldsEqB_refl r]

end

/-- Reflexivity of the metadata equality. -/
theorem metaEqB_refl (m : List (String × String)) : metaEqB m m = true := by
  induction m with
  | nil => rfl
  | cons kv r ih => simp [metaEqB, ih]

/-- Reflexivity of schema equality. -/
theorem schemaEqB_refl (s : ArrowSchema) : schemaEqB s s = true := by
  simp [schemaEqB, fieldsEqB_refl, metaEqB_refl]

/-! ## Merge compilation helper lemmas -/

/-- Additivity of the matched-update handler: compiling against any builder
prefixes that builder's clauses to the clauses compiled from scratch. -/
theorem add_matched_update_clause_additive (b : MergeBuilder) (cl : List (String × RVal)) :
    add_matched_update_clause b cl =
      Except.map (fun b2 => MergeBuilder.mk (b.ops ++ b2.ops))
        (add_matched_update_clause ⟨[]⟩ cl) := by
  unfold add_matched_update_clause
  cases hu : is_update_all cl
  · cases he : extract_updates cl with
    | error e =>
        cases hp : extract_predicate cl <;>
          simp [he, hp, Except.map, bind, Except.bind]
    | ok u =>
        cases hp : extract_predicate cl <;>
          simp [he, hp, Except.map, bind, Except.bind, MergeBuilder.when_matched_update]
  · simp [Except.map]

/-- Additivity of the matched-delete handler. -/
theorem add_matched_delete_clause_additive (b : MergeBuilder) (cl : List (String × RVal)) :
    add_matched_delete_clause b cl =
      Except.map (fun b2 => MergeBuilder.mk (b.ops ++ b2.ops))
        (add_matched_delete_clause ⟨[]⟩ cl) := by
  unfold add_matched_delete_clause
  cases hp : extract_predicate cl <;>
    simp [Except.map, MergeBuilder.when_matched_delete]

/-- Additivity of the not-matched-insert handler. -/
theorem add_not_matched_insert_clause_additive (b : MergeBuilder) (cl : List (String × RVal)) :
    add_not_matched_insert_clause b cl =
      Except.map (fun b2 => MergeBuilder.mk (b.ops ++ b2.ops))
        (add_not_matched_insert_clause ⟨[]⟩ cl) := by
  unfold add_not_matched_insert_clause
  cases hu : is_insert_all cl
  · cases he : extract_updates cl with
    | error e =>
        cases hp : extract_predicate cl <;>
          simp [he, hp, Except.map, bind, Except.bind]
    | ok u =>
        cases hp : extract_predicate cl <;>
          simp [he, hp, Except.map, bind, Except.bind, MergeBuilder.when_not_matched_insert]
  · simp [Except.map]

/-- Additivity of the not-matched-by-source-update handler. -/
theorem add_not_matched_by_source_update_clause_additive
    (b : MergeBuilder) (cl : List (String × RVal)) :
    add_not_matched_by_source_update_clause b cl =
      Except.map (fun b2 => MergeBuilder.mk (b.ops ++ b2.ops))
        (add_not_matched_by_source_update_clause ⟨[]⟩ cl) := by
  unfold add_not_matched_by_source_update_clause
  cases he : extract_updates cl with
  | error e =>
      cases hp : extract_predicate cl <;>
        simp [he, hp, Except.map, bind, Except.bind]
  | ok u =>
      cases hp : extract_predicate cl <;>
        simp [he, hp, Except.map, bind, Except.bind,
          MergeBuilder.when_not_matched_by_source_update]

/-- Additivity of the not-matched-by-source-delete handler. -/
theorem add_not_matched_by_source_delete_clause_additive
    (b : MergeBuilder) (cl : List (String × RVal)) :
    add_not_matched_by_source_delete_clause b cl =
      Except.map (fun b2 => MergeBuilder.mk (b.ops ++ b2.ops))
        (add_not_matched_by_source_delete_clause ⟨[]⟩ cl) := by
  unfold add_not_matched_by_source_delete_clause
  cases hp : extract_predicate cl <;>
    simp [Except.map, MergeBuilder.when_not_matched_by_source_delete]

/-- Folding a category from any builder prefixes that builder's clauses to
the clauses the category contributes on its own. -/
theorem fold_category_clauses_additive
    (add : MergeBuilder → List (String × RVal) → Except String MergeBuilder)
    (hadd : ∀ b cl, add b cl =
      Except.map (fun b2 => MergeBuilder.mk (b.ops ++ b2.ops)) (add ⟨[]⟩ cl))
    (cs : List (String × RVal)) (b : MergeBuilder) :
    fold_category_clauses add b cs =
      Except.map (fun b2 => MergeBuilder.mk (b.ops ++ b2.ops))
        (fold_category_clauses add ⟨[]⟩ cs) := by
  induction cs generalizing b with
  | nil => simp [fold_category_clauses, Except.map]
  | cons kv rest ih =>
      cases hl : kv.2.as_list with
      | none =>
          simp only [fold_category_clauses, hl]
          exact ih b
      | some cl =>
          simp only [fold_category_clauses, hl]
          rw [hadd b cl]
          cases h0 : add ⟨[]⟩ cl with
          | error e => simp [Except.map]
          | ok b0 =>
              simp only [Except.map]
              rw [ih ⟨b.ops ++ b0.ops⟩, ih b0]
              cases h1 : fold_category_clauses add ⟨[]⟩ rest <;>
                simp [Except.map, List.append_assoc]

/-- The sequential five-category compilation equals compiling each category
in isolation and concatenating the clause lists in the fixed source order. -/
theorem compile_all_clauses_eq (mu md nmi nbu nbd : List (String × RVal)) :
    compile_all_clauses mu md nmi nbu nbd =
      (do
        let l1 ← category_ops add_matched_update_clause mu
        let l2 ← category_ops add_matched_delete_clause md
        let l3 ← category_ops add_not_matched_insert_clause nmi
        let l4 ← category_ops add_not_matched_by_source_update_clause nbu
        let l5 ← category_ops add_not_matched_by_source_delete_clause nbd
        pure ⟨l1 ++ l2 ++ l3 ++ l4 ++ l5⟩) := by
  unfold compile_all_clauses category_ops
  cases h1 : fold_category_clauses add_matched_update_clause ⟨[]⟩ mu with
  | error e => simp [Except.map, bind, Except.bind]
  | ok b1 =>
      simp only [Except.map, bind, Except.bind]
      rw [fold_category_clauses_additive _ add_matched_delete_clause_additive md b1]
      cases h2 : fold_category_clauses add_matched_delete_clause ⟨[]⟩ md with
      | error e => simp [Except.map]
      | ok b2 =>
          simp only [Except.map]
          rw [fold_category_clauses_additive _ add_not_matched_insert_clause_additive nmi
            ⟨b1.ops ++ b2.ops⟩]
          cases h3 : fold_category_clauses add_not_matched_insert_clause ⟨[]⟩ nmi with
          | error e => simp [Except.map]
          | ok b3 =>
              simp only [Except.map]
              rw [fold_category_clauses_additive _
                add_not_matched_by_source_update_clause_additive nbu
                ⟨b1.ops ++ b2.ops ++ b3.ops⟩]
              cases h4 : fold_category_clauses add_not_matched_by_source_update_clause
                  ⟨[]⟩ nbu with
              | error e => simp [Except.map]
              | ok b4 =>
                  simp only [Except.map]
                  rw [fold_category_clauses_additive _
                    add_not_matched_by_source_delete_clause_additive nbd
                    ⟨b1.ops ++ b2.ops ++ b3.ops ++ b4.ops⟩]
                  cases h5 : fold_category_clauses add_not_matched_by_source_delete_clause
                      ⟨[]⟩ nbd <;>
                    simp [Except.map, pure, Except.pure]

/-- Any clause-compilation error leaves the observed table state unchanged
and yields an error result: the engine merge is never consulted. -/
theorem delta_merge_execute_stable_of_compile_error
    (env : Env) (t : DeltaTable) (reader : Reader)
    (mu md nmi nbu nbd : List (String × RVal)) (e : String)
    (h : compile_all_clauses mu md nmi nbu nbd = .error e) :
    (delta_merge_execute env t reader mu md nmi nbu nbd).1 = t ∧
    isOkB (delta_merge_execute env t reader mu md nmi nbu nbd).2 = false := by
  unfold delta_merge_execute
  cases hc : collect_batches reader.items with
  | error e2 => simp [hc, isOkB]
  | ok batches =>
      cases hm : mem_table_new reader.schema batches with
      | error e2 => simp [hc, hm, isOkB]
      | ok u =>
          cases hs : t.state with
          | none => simp [hc, hm, hs, isOkB]
          | some s => simp [hc, hm, hs, h, isOkB]

/-- A matched-update category whose first list entry carries update_all makes
the whole compilation fail with the not-yet-supported error. -/
theorem compile_error_of_update_all_first (nm : String) (cl : List (String × RVal))
    (hu : is_update_all cl = true) (md nmi nbu nbd : List (String × RVal)) :
    compile_all_clauses [(nm, .listV cl)] md nmi nbu nbd =
      .error "when_matched_update_all is not yet supported. Please use when_matched_update with explicit column mappings." := by
  simp [compile_all_clauses, fold_category_clauses, RVal.as_list,
    add_matched_update_clause, hu, bind, Except.bind]

/-! ## Claim theorems -/

/-- C1: delta_write passes the stream's own schema (batch_schema) to
maybe_lazy_cast_reader as the cast target, so the schema-casting stage of the
write path is the identity for every input stream, in every table state: no
batch is ever cast to the table's current schema, although the function's own
documentation promises on-the-fly casting. -/
theorem delta_write_never_casts (r : Reader) : delta_write_cast_stage r = r := by
  unfold delta_write_cast_stage maybe_lazy_cast_reader
  simp [schemaEqB_refl]

/-- C2 counterexample: a clause carrying update_all = true in the
not-matched-by-source-update category compiles without any error: the flag is
silently ignored and an unconditional empty update clause is recorded,
falsifying the claim that every category rejects the flag. -/
theorem update_all_flag_ignored_for_not_matched_by_source :
    add_not_matched_by_source_update_clause ⟨[]⟩ [("update_all", .boolV true)] =
      .ok ⟨[.notMatchedBySourceUpdate none []]⟩ := rfl

/-- C2 (amended): a matched-update clause with update_all = true and a
not-matched-insert clause with insert_all = true fail fast with the
not-yet-supported explicit-column-mapping error, and a flagged matched-update
clause aborts the whole merge with the table state unchanged before any
engine call; the other clause categories do not check the flags. -/
theorem unsupported_flags_fail_fast_in_checked_categories
    (b : MergeBuilder) (cl : List (String × RVal)) :
    (is_update_all cl = true →
      add_matched_update_clause b cl =
        .error "when_matched_update_all is not yet supported. Please use when_matched_update with explicit column mappings.") ∧
    (is_insert_all cl = true →
      add_not_matched_insert_clause b cl =
        .error "when_not_matched_insert_all is not yet supported. Please use when_not_matched_insert with explicit column mappings.") ∧
    (∀ (env : Env) (t : DeltaTable) (reader : Reader) (nm : String),
      is_update_all cl = true →
        (delta_merge_execute env t reader [(nm, .listV cl)] [] [] [] []).1 = t ∧
        isOkB (delta_merge_execute env t reader [(nm, .listV cl)] [] [] [] []).2 = false) := by
  refine ⟨fun h => ?_, fun h => ?_, fun env t reader nm h => ?_⟩
  · simp [add_matched_update_clause, h]
  · simp [add_not_matched_insert_clause, h]
  · exact delta_merge_execute_stable_of_compile_error env t reader _ _ _ _ _ _
      (compile_error_of_update_all_first nm cl h [] [] [] [])

/-- C2 witness: the amended behaviour at an explicit flagged clause. -/
theorem unsupported_flags_fail_fast_witness :
    add_matched_update_clause ⟨[]⟩
        [("update_all", .boolV true), ("insert_all", .boolV true)] =
      .error "when_matched_update_all is not yet supported. Please use when_matched_update with explicit column mappings." ∧
    add_not_matched_insert_clause ⟨[]⟩
        [("update_all", .boolV true), ("insert_all", .boolV true)] =
      .error "when_not_matched_insert_all is not yet supported. Please use when_not_matched_insert with explicit column mappings." ∧
    ((delta_merge_execute sampleEnv sampleTable sampleReader
        [("c", .listV [("update_all", .boolV true), ("insert_all", .boolV true)])]
        [] [] [] []).1 = sampleTable ∧
      isOkB (delta_merge_execute sampleEnv sampleTable sampleReader
        [("c", .listV [("update_all", .boolV true), ("insert_all", .boolV true)])]
        [] [] [] []).2 = false) :=
  ⟨(unsupported_flags_fail_fast_in_checked_categories ⟨[]⟩
      [("update_all", .boolV true), ("insert_all", .boolV true)]).1 rfl,
   (unsupported_flags_fail_fast_in_checked_categories ⟨[]⟩
      [("update_all", .boolV true), ("insert_all", .boolV true)]).2.1 rfl,
   (unsupported_flags_fail_fast_in_checked_categories ⟨[]⟩
      [("update_all", .boolV true), ("insert_all", .boolV true)]).2.2
      sampleEnv sampleTable sampleReader "c" rfl⟩

/-- C3: the five merge clause categories are compiled in the fixed order
matched-update, matched-delete, not-matched-insert,
not-matched-by-source-update, not-matched-by-source-delete (the compiled
builder is the concatenation of the per-category compilations in exactly that
order), and any clause-compilation error aborts the merge before the engine
execution is invoked, leaving the observed table state unchanged. -/
theorem merge_clause_order_and_atomicity :
    (∀ mu md nmi nbu nbd : List (String × RVal),
      compile_all_clauses mu md nmi nbu nbd =
        (do
          let l1 ← category_ops add_matched_update_clause mu
          let l2 ← category_ops add_matched_delete_clause md
          let l3 ← category_ops add_not_matched_insert_clause nmi
          let l4 ← category_ops add_not_matched_by_source_update_clause nbu
          let l5 ← category_ops add_not_matched_by_source_delete_clause nbd
          pure ⟨l1 ++ l2 ++ l3 ++ l4 ++ l5⟩)) ∧
    (∀ (env : Env) (t : DeltaTable) (reader : Reader)
        (mu md nmi nbu nbd : List (String × RVal)) (e : String),
      compile_all_clauses mu md nmi nbu nbd = .error e →
        (delta_merge_execute env t reader mu md nmi nbu nbd).1 = t ∧
        isOkB (delta_merge_execute env t reader mu md nmi nbu nbd).2 = false) :=
  ⟨compile_all_clauses_eq,
   fun env t reader mu md nmi nbu nbd e h =>
     delta_merge_execute_stable_of_compile_error env t reader mu md nmi nbu nbd e h⟩

/-- C3 witness: at an explicit clause list whose compilation fails, the
category decomposition holds and the merge leaves the sample table
unchanged, reporting an error. -/
theorem merge_clause_order_and_atomicity_witness :
    compile_all_clauses [("c", .listV [("update_all", .boolV true)])] [] [] [] [] =
      (do
        let l1 ← category_ops add_matched_update_clause
          [("c", .listV [("update_all", .boolV true)])]
        let l2 ← category_ops add_matched_delete_clause []
        let l3 ← category_ops add_not_matched_insert_clause []
        let l4 ← category_ops add_not_matched_by_source_update_clause []
        let l5 ← category_ops add_not_matched_by_source_delete_clause []
        pure ⟨l1 ++ l2 ++ l3 ++ l4 ++ l5⟩) ∧
    ((delta_merge_execute sampleEnv sampleTable sampleReader
        [("c", .listV [("update_all", .boolV true)])] [] [] [] []).1 = sampleTable ∧
      isOkB (delta_merge_execute sampleEnv sampleTable sampleReader
        [("c", .listV [("update_all", .boolV true)])] [] [] [] []).2 = false) :=
  ⟨merge_clause_order_and_atomicity.1 [("c", .listV [("update_all", .boolV true)])] [] [] [] [],
   merge_clause_order_and_atomicity.2 sampleEnv sampleTable sampleReader
     [("c", .listV [("update_all", .boolV true)])] [] [] [] []
     "when_matched_update_all is not yet supported. Please use when_matched_update with explicit column mappings."
     (by rfl)⟩

/-- C4: unsigned integers are promoted to the next wider signed kernel kind
(UInt8 to Short, UInt16 to Integer, UInt32 to Long) and UInt64 is always
rejected with a type error. -/
theorem unsigned_integer_promotion :
    arrow_type_to_kernel .uint8 = .ok (.primitive .short) ∧
    arrow_type_to_kernel .uint16 = .ok (.primitive .integer) ∧
    arrow_type_to_kernel .uint32 = .ok (.primitive .long) ∧
    isOkB (arrow_type_to_kernel .uint64) = false :=
  ⟨rfl, rfl, rfl, rfl⟩

/-- C5: every time-of-day, duration, interval, union and null-only source
type is rejected (never mapped), and the errors carry kind-specific messages
with a remediation hint, shown here verbatim at canonical payloads. -/
theorem unmappable_kinds_always_error :
    (∀ u, isOkB (arrow_type_to_kernel (.time32 u)) = false) ∧
    (∀ u, isOkB (arrow_type_to_kernel (.time64 u)) = false) ∧
    (∀ u, isOkB (arrow_type_to_kernel (.duration u)) = false) ∧
    (∀ u, isOkB (arrow_type_to_kernel (.interval u)) = false) ∧
    isOkB (arrow_type_to_kernel .union) = false ∧
    isOkB (arrow_type_to_kernel .null) = false ∧
    errMessage (arrow_type_to_kernel (.time32 .second)) =
      "Unsupported Arrow type for Delta Lake: Time32(Second). Delta Lake does not support standalone Time types. Consider using Timestamp or storing as String/Int64." ∧
    errMessage (arrow_type_to_kernel (.duration .second)) =
      "Unsupported Arrow type for Delta Lake: Duration(Second). Delta Lake does not support Duration types. Consider storing as Int64 (representing microseconds or your preferred unit)." ∧
    errMessage (arrow_type_to_kernel (.interval .yearMonth)) =
      "Unsupported Arrow type for Delta Lake: Interval(YearMonth). Delta Lake does not support Interval types. Consider storing interval components as separate columns." ∧
    errMessage (arrow_type_to_kernel .union) =
      "Unsupported Arrow type for Delta Lake: Union. Delta Lake does not support Union types. Consider restructuring your data or using a Struct with nullable fields." ∧
    errMessage (arrow_type_to_kernel .null) =
      "Unsupported Arrow type for Delta Lake: Null. Delta Lake does not support columns with only null values. Consider removing null-only columns or assigning a concrete type." :=
  ⟨fun u => by cases u <;> rfl,
   fun u => by cases u <;> rfl,
   fun u => by cases u <;> rfl,
   fun u => by cases u <;> rfl,
   rfl, rfl, rfl, rfl, rfl, rfl, rfl⟩

/-- C6 counterexample: a Map whose entry struct has three fields is accepted
(the mapper only requires at least two fields and uses the first two),
falsifying the claim that any representation other than a two-field entry
struct fails. -/
theorem map_with_three_field_entry_struct_accepted :
    arrow_type_to_kernel (.map "entries"
        (.struct (.cons "key" .int32 false (.cons "value" .int64 true
          (.cons "extra" .boolean true .nil)))) false false) =
      .ok (.map (.primitive .integer) (.primitive .long) true) := rfl

/-- C6 (amended): a Map maps exactly when its entry type is a struct with at
least two fields; the first two fields are mapped recursively as key and
value and the second field's nullability is preserved, while any other
representation is rejected with a structural error. -/
theorem map_entry_struct_mapping :
    (∀ (mn kn : String) (kt : ArrowDT) (kb : Bool) (vn : String) (vt : ArrowDT)
        (vb : Bool) (rest : FieldList) (mb ms : Bool) (K V : KernelDT),
      arrow_type_to_kernel kt = .ok K → arrow_type_to_kernel vt = .ok V →
        arrow_type_to_kernel
            (.map mn (.struct (.cons kn kt kb (.cons vn vt vb rest))) mb ms) =
          .ok (.map K V vb)) ∧
    (∀ (mn : String) (met : ArrowDT) (mb ms : Bool),
      structHasTwoFields met = false →
        isOkB (arrow_type_to_kernel (.map mn met mb ms)) = false) := by
  constructor
  · intro mn kn kt kb vn vt vb rest mb ms K V h1 h2
    have e1 : arrow_type_to_kernel
        (.map mn (.struct (.cons kn kt kb (.cons vn vt vb rest))) mb ms) =
        Except.bind (arrow_type_to_kernel kt) (fun keyType =>
          Except.bind (arrow_type_to_kernel vt) (fun valueType =>
            Except.ok (.map keyType valueType vb))) := rfl
    rw [e1, h1, h2]
    rfl
  · intro mn met mb ms h
    cases met <;> try rfl
    case struct fs =>
      cases fs with
      | nil => rfl
      | cons n t b r =>
          cases r with
          | nil => rfl
          | cons n2 t2 b2 r2 => simp [structHasTwoFields] at h

/-- C6 witness: the amended behaviour at explicit map types. -/
theorem map_entry_struct_mapping_witness :
    arrow_type_to_kernel (.map "entries"
        (.struct (.cons "key" .utf8 false (.cons "value" .int64 true .nil))) false false) =
      .ok (.map (.primitive .string) (.primitive .long) true) ∧
    isOkB (arrow_type_to_kernel (.map "entries" .null false false)) = false :=
  ⟨map_entry_struct_mapping.1 "entries" "key" .utf8 false "value" .int64 true .nil
      false false (.primitive .string) (.primitive .long) rfl rfl,
   map_entry_struct_mapping.2 "entries" .null false false rfl⟩

/-- C7 counterexample: Decimal128 with precision 0 has precision at most 38
but the mapper rejects it (the kernel decimal invariant requires precision at
least 1), falsifying the claim that every decimal with precision at most 38
maps successfully. -/
theorem decimal128_precision_zero_rejected :
    isOkB (arrow_type_to_kernel (.decimal128 0 0)) = false := rfl

/-- C7 (amended): every decimal source of any width whose precision lies in
[1,38] maps to the decimal(precision, scale) kernel kind (the i8 scale is
reinterpreted as a u8 as in the source cast), and a Decimal256 whose
precision exceeds 38 always fails with the explicit precision-exceeded
error. -/
theorem decimal_mapping_amended :
    (∀ (p : Nat) (s : Int), 1 ≤ p → p ≤ 38 →
      arrow_type_to_kernel (.decimal32 p s) = .ok (.primitive (.decimal p (i8ToU8 s))) ∧
      arrow_type_to_kernel (.decimal64 p s) = .ok (.primitive (.decimal p (i8ToU8 s))) ∧
      arrow_type_to_kernel (.decimal128 p s) = .ok (.primitive (.decimal p (i8ToU8 s))) ∧
      arrow_type_to_kernel (.decimal256 p s) = .ok (.primitive (.decimal p (i8ToU8 s)))) ∧
    (∀ (p : Nat) (s : Int), 38 < p →
      arrow_type_to_kernel (.decimal256 p s) =
        .error ⟨"Unsupported Arrow type for Delta Lake: Decimal256 with precision " ++
          toString p ++ ". Delta Lake supports Decimal with precision up to 38. " ++
          "Consider reducing precision or storing as String."⟩) := by
  constructor
  · intro p s h1 h2
    have hcond : 1 ≤ p ∧ p ≤ 38 := ⟨h1, h2⟩
    have hnot : ¬ p > 38 := by omega
    refine ⟨?_, ?_, ?_, ?_⟩ <;>
      simp [arrow_type_to_kernel, kernelDecimal, hcond, hnot, Except.mapError]
  · intro p s h
    simp [arrow_type_to_kernel, h]

/-- C7 witness: the amended behaviour at explicit decimal types. -/
theorem decimal_mapping_amended_witness :
    arrow_type_to_kernel (.decimal128 38 10) = .ok (.primitive (.decimal 38 (i8ToU8 10))) ∧
    arrow_type_to_kernel (.decimal256 39 0) =
      .error ⟨"Unsupported Arrow type for Delta Lake: Decimal256 with precision " ++
        toString (39 : Nat) ++ ". Delta Lake supports Decimal with precision up to 38. " ++
        "Consider reducing precision or storing as String."⟩ :=
  ⟨(decimal_mapping_amended.1 38 10 (by decide) (by decide)).2.2.1,
   decimal_mapping_amended.2 39 0 (by decide)⟩

/-- C8: is_delta_table is a total boolean: it returns true exactly when URL
conversion, table opening and table loading all succeed, hence false (never
an error) whenever the path cannot be converted to a URL, the table cannot be
opened, or the table cannot be loaded. -/
theorem is_delta_table_never_errors (env : Env) (path : String)
    (opts : Option (List (String × RVal))) :
    is_delta_table env path opts = true ↔
      ∃ url t, path_to_url env path = .ok url ∧ open_table env url opts = .ok t ∧
        isOkB (env.loadTable t) = true := by
  unfold is_delta_table
  cases hp : path_to_url env path with
  | error e => simp
  | ok url =>
      cases ho : open_table env url opts with
      | error e => simp [ho]
      | ok t =>
          simp only [ho]
          constructor
          · intro h
            exact ⟨url, t, rfl, ho, h⟩
          · rintro ⟨url2, t2, h1, h2, h3⟩
            rw [Except.ok.injEq] at h1
            subst h1
            rw [ho, Except.ok.injEq] at h2
            subst h2
            exact h3

/-- C9: the public version accessor returns the sentinel -1 when the table
version is unavailable, and the write result record reports version -1 and
num_files 0 when the version or the file listing cannot be read. -/
theorem version_sentinel_fallback (t : DeltaTable) :
    (t.version = none → DeltaTableInternal.version t = -1) ∧
    (t.version = none → (delta_write_result t).1 = -1) ∧
    (∀ e, t.fileUris = .error e → (delta_write_result t).2 = 0) := by
  refine ⟨fun h => ?_, fun h => ?_, fun e h => ?_⟩ <;>
    simp [DeltaTableInternal.version, delta_write_result, h]

/-- C9 witness: the sentinel results at an explicit unavailable table. -/
theorem version_sentinel_fallback_witness :
    DeltaTableInternal.version ⟨none, .error "io", none⟩ = -1 ∧
    (delta_write_result ⟨none, .error "io", none⟩).1 = -1 ∧
    (delta_write_result ⟨none, .error "io", none⟩).2 = 0 :=
  ⟨(version_sentinel_fallback ⟨none, .error "io", none⟩).1 rfl,
   (version_sentinel_fallback ⟨none, .error "io", none⟩).2.1 rfl,
   (version_sentinel_fallback ⟨none, .error "io", none⟩).2.2 "io" rfl⟩

/-- C10: the reverse mapping used by the public schema accessor maps every
Variant kernel type to the plain string type, a successful fallback rather
than an error, and a field of Variant type keeps its name and nullability
with a string data type. -/
theorem variant_kernel_type_maps_to_string (fs : KFieldList) (name : String)
    (nullable : Bool) :
    kernel_type_to_arrow (.variant fs) = .utf8 ∧
    kernel_fields_to_arrow (.cons name (.variant fs) nullable .nil) =
      .cons name .utf8 nullable .nil :=
  ⟨rfl, rfl⟩

end DeltaR
